import Mathlib

/-!
Verification of the portfolio-aggregation core of `interactive_stock_analysis.py`.

The embedding starts from the parsed CSV table: a `Row` is one record of the
transaction file with its `Instrument`, `Trans Code`, `Quantity`, `Price` and
`Amount` cells as raw strings.  The numeric cleaning and conversion performed
by `process_data` (regex-stripping of currency characters, `astype(float)`,
`pd.to_numeric(..., errors="coerce")`) is modelled by string-level parsers;
`astype(float)` raising `ValueError` on an unparseable non-empty cell is
modelled by `Except`, and the float `NaN` produced by an empty cell or by
`errors="coerce"` is modelled by `Option` (`none` is NaN, skipped by the
pandas sums, which default to `skipna=True`).  Real-number arithmetic is
idealised as exact rational arithmetic; `Series.round` is numpy's
round-half-to-even at the given number of decimals.  The `groupby` key order
(pandas sorts group keys) is reproduced by sorting the distinct instruments
lexicographically.
-/

/-- One raw record of the transaction table, fields as read from the CSV.
An empty string stands for an empty cell (which `read_csv` loads as NaN). -/
structure Row where
  instrument : String
  transCode : String
  quantity : String
  price : String
  amount : String
deriving Repr, DecidableEq

/-- The transaction codes kept by `process_data`, line 24:
`df["Trans Code"].isin(["Buy", "Sell", "CDIV"])` (exact, case-sensitive). -/
def transCodes : List String := ["Buy", "Sell", "CDIV"]

/-- A decimal literal split into sign, integer part, fractional digits value
and fractional length, the intermediate shape of the float conversion. -/
structure Dec where
  neg : Bool
  ip : Nat
  fp : Nat
  fl : Nat
deriving Repr, DecidableEq

/-- Fold a digit list into the natural number it denotes. -/
def digitsVal (l : List Char) : Nat :=
  l.foldl (fun n c => 10 * n + (c.toNat - 48)) 0

/-- Decimal-literal recogniser modelling Python `float` on the inputs this
pipeline sees: an optional sign, then `digits`, `digits.digits`, `digits.`
or `.digits`.  Returns `none` when the string is not such a literal (where
`astype(float)` raises and `pd.to_numeric(..., errors="coerce")` yields NaN). -/
def parseDec? (s : String) : Option Dec :=
  let cs := s.toList
  let signed : Bool × List Char :=
    match cs with
    | '-' :: rest => (true, rest)
    | '+' :: rest => (false, rest)
    | _ => (false, cs)
  let intPart := signed.2.takeWhile Char.isDigit
  let rest := signed.2.dropWhile Char.isDigit
  match rest with
  | [] => if intPart.isEmpty then none else some ⟨signed.1, digitsVal intPart, 0, 0⟩
  | '.' :: frac =>
    if frac.all Char.isDigit && !(intPart.isEmpty && frac.isEmpty) then
      some ⟨signed.1, digitsVal intPart, digitsVal frac, frac.length⟩
    else none
  | _ => none

/-- The rational value of a decimal literal. -/
def Dec.toRat (d : Dec) : ℚ :=
  (if d.neg then -1 else 1) * ((d.ip : ℚ) + (d.fp : ℚ) / 10 ^ d.fl)

/-- String-to-float conversion, `none` on failure. -/
def parseFloat? (s : String) : Option ℚ := (parseDec? s).map Dec.toRat

/-- Remove every character of `bad` from `s`: the effect of
`Series.replace(r"[...]", "", regex=True)` on a string cell. -/
def stripChars (bad : List Char) (s : String) : String :=
  ⟨s.toList.filter (fun c => !(bad.contains c))⟩

/-- Character class stripped from the `Price` column, line 28: `[\$,]`. -/
def stripPrice (s : String) : String := stripChars ['$', ','] s

/-- Character class stripped from the `Amount` column, line 31: `[\$,()]`.
Note that `(` and `)` are removed and nothing negates the value. -/
def stripAmount (s : String) : String := stripChars ['$', ',', '(', ')'] s

/-- The default NA tokens of `pandas.read_csv` (`keep_default_na=True`, as
on line 21): a CSV cell holding one of these texts is loaded as the float
NaN before any column conversion runs. -/
def naTokens : List String :=
  ["", "#N/A", "#N/A N/A", "#NA", "-1.#IND", "-1.#QNAN", "-NaN", "-nan",
   "1.#IND", "1.#QNAN", "<NA>", "N/A", "NA", "NULL", "NaN", "None", "n/a",
   "nan", "null"]

/-- Clean-and-convert of a currency cell (`.replace(regex).astype(float)`,
lines 27–32): a cell that is one of `read_csv`'s NA tokens (such as an empty
cell or "N/A") was already loaded as float NaN, which `replace` and
`astype` pass through without raising; any other cell is stripped and must
parse as a float literal, otherwise `astype(float)` raises `ValueError`. -/
def parseCurrency (strip : String → String) (s : String) : Except Unit (Option ℚ) :=
  if naTokens.contains s then .ok none
  else
    match parseFloat? (strip s) with
    | some q => .ok (some q)
    | none => .error ()

/-- A transaction after numeric cleaning; `none` fields are float NaN. -/
structure Txn where
  instrument : String
  transCode : String
  quantity : Option ℚ
  price : Option ℚ
  amount : Option ℚ
deriving Repr, DecidableEq

/-- Clean one kept row: `Price` and `Amount` via the currency conversion
(raising on unparseable non-NA cells), `Quantity` via
`pd.to_numeric(errors="coerce")` (line 33; NaN on failure, never raising —
and since no NA token parses as a decimal literal, a cell `read_csv` loads
as NaN lands on `none` here too). -/
def parseRow (r : Row) : Except Unit Txn := do
  let price ← parseCurrency stripPrice r.price
  let amount ← parseCurrency stripAmount r.amount
  pure { instrument := r.instrument, transCode := r.transCode,
         quantity := parseFloat? r.quantity, price := price, amount := amount }

/-- Clean a list of kept rows; the first conversion failure aborts the whole
load, as the column-wise `astype(float)` exception does. -/
def parseRows : List Row → Except Unit (List Txn)
  | [] => .ok []
  | r :: rs => do
    let t ← parseRow r
    let ts ← parseRows rs
    pure (t :: ts)

/-- Lines 24–33 of `process_data`: keep only rows whose `Trans Code` is one
of `transCodes`, then clean the numeric columns. -/
def parseTable (rows : List Row) : Except Unit (List Txn) :=
  parseRows (rows.filter (fun r => transCodes.contains r.transCode))

/-- pandas sum with `skipna=True`: NaN entries are skipped, the sum of an
empty or all-NaN list is `0`. -/
def sumO (l : List (Option ℚ)) : ℚ := (l.filterMap id).sum

/-- NaN-propagating product, for `Price * Quantity` (line 42). -/
def omul (a b : Option ℚ) : Option ℚ := a.bind (fun x => b.map (fun y => x * y))

/-- The `Buy` rows of instrument `i` (lines 36 and 47: the `Buy` slice,
grouped by `Instrument`). -/
def buyRows (ts : List Txn) (i : String) : List Txn :=
  ts.filter (fun t => t.transCode == "Buy" && t.instrument == i)

/-- The `Sell` rows of instrument `i` (lines 37 and 52). -/
def sellRows (ts : List Txn) (i : String) : List Txn :=
  ts.filter (fun t => t.transCode == "Sell" && t.instrument == i)

/-- The `CDIV` rows of instrument `i` (lines 38 and 55). -/
def divRows (ts : List Txn) (i : String) : List Txn :=
  ts.filter (fun t => t.transCode == "CDIV" && t.instrument == i)

/-- `buy_summary`'s `Quantity` column: sum of `Buy` quantities (line 49). -/
def Quantity_buy (ts : List Txn) (i : String) : ℚ :=
  sumO ((buyRows ts i).map (fun t => t.quantity))

/-- `buy_summary`'s `Total_Cost` column: sum of `Price * Quantity` over the
`Buy` rows (lines 42–49). -/
def Total_Cost (ts : List Txn) (i : String) : ℚ :=
  sumO ((buyRows ts i).map (fun t => omul t.price t.quantity))

/-- `sell_summary`'s `Quantity` column (line 53); after the left merge the
missing value for an instrument with no `Sell` rows is filled with `0`
(line 67), which coincides with this sum over the empty list. -/
def Quantity_sell (ts : List Txn) (i : String) : ℚ :=
  sumO ((sellRows ts i).map (fun t => t.quantity))

/-- `dividend_summary`'s `Amount` column (line 56); after the left merge the
missing value for an instrument with no `CDIV` rows is filled with `0`
(line 96), which coincides with this sum over the empty list. -/
def dividendSum (ts : List Txn) (i : String) : ℚ :=
  sumO ((divRows ts i).map (fun t => t.amount))

/-- `Net_Quantity = Quantity_buy - Quantity_sell` (lines 70–72). -/
def Net_Quantity (ts : List Txn) (i : String) : ℚ :=
  Quantity_buy ts i - Quantity_sell ts i

/-- `Adjusted_Cost = Total_Cost * (Net_Quantity / Quantity_buy)`
(lines 75–77). -/
def Adjusted_Cost (ts : List Txn) (i : String) : ℚ :=
  Total_Cost ts i * (Net_Quantity ts i / Quantity_buy ts i)

/-- Round-half-to-even to an integer, numpy's rounding rule. -/
def roundHalfEven (q : ℚ) : ℤ :=
  let f := ⌊q⌋
  let frac := q - f
  if frac < 1 / 2 then f
  else if 1 / 2 < frac then f + 1
  else if f % 2 = 0 then f else f + 1

/-- `Series.round(n)`: round-half-to-even at `n` decimal places. -/
def roundTo (n : ℕ) (q : ℚ) : ℚ := (roundHalfEven (q * 10 ^ n) : ℚ) / 10 ^ n

/-- `Average_Price = (Adjusted_Cost / Net_Quantity).round(2)` (lines 80–82). -/
def Average_Price (ts : List Txn) (i : String) : ℚ :=
  roundTo 2 (Adjusted_Cost ts i / Net_Quantity ts i)

/-- `Total_Invested = Adjusted_Cost.round(2)` (line 85; the second
`round(2)` on line 102 is idempotent on it). -/
def Total_Invested (ts : List Txn) (i : String) : ℚ :=
  roundTo 2 (Adjusted_Cost ts i)

/-- `Total_Dividends = Amount.fillna(0).round(2)` (lines 96 and 101). -/
def Total_Dividends (ts : List Txn) (i : String) : ℚ :=
  roundTo 2 (dividendSum ts i)

/-- Lexicographic order on code-point lists. -/
def charListLe : List Char → List Char → Bool
  | [], _ => true
  | _ :: _, [] => false
  | a :: as, b :: bs =>
    if a.toNat < b.toNat then true
    else if b.toNat < a.toNat then false
    else charListLe as bs

/-- Lexicographic order on strings (the pandas `groupby` key sort). -/
def strLe (a b : String) : Bool := charListLe a.toList b.toList

/-- Insert into a `strLe`-sorted list. -/
def insertSorted (s : String) : List String → List String
  | [] => [s]
  | t :: ts => if strLe s t then s :: t :: ts else t :: insertSorted s ts

/-- Insertion sort by `strLe`. -/
def sortStrings (l : List String) : List String := l.foldr insertSorted []

/-- Distinct keys of a list. -/
def dedupKeys : List String → List String
  | [] => []
  | x :: xs =>
    let r := dedupKeys xs
    if r.contains x then r else x :: r

/-- The group keys of `buy_summary` (line 47): the distinct instruments
having at least one `Buy` row, in sorted order.  The merges on lines 60 and
93 are left joins, so these are exactly the instruments of `shares_summary`. -/
def buyInstruments (ts : List Txn) : List String :=
  sortStrings (dedupKeys ((ts.filter (fun t => t.transCode == "Buy")).map
    (fun t => t.instrument)))

/-- The instruments of `final_shares` (line 88): the filter
`shares_summary["Net_Quantity"] > 0`. -/
def displayedInstruments (ts : List Txn) : List String :=
  (buyInstruments ts).filter (fun i => decide (0 < Net_Quantity ts i))

/-- One row of the final summary table, the output of `process_data`. -/
structure Summary where
  Instrument : String
  Net_Quantity : ℚ
  Average_Price : ℚ
  Total_Invested : ℚ
  Total_Dividends : ℚ
deriving Repr, DecidableEq

/-- The `final_summary` row of instrument `i` (lines 85–102; `Net_Quantity`
is rounded to 3 decimals on line 100, after the `> 0` filter). -/
def mkSummary (ts : List Txn) (i : String) : Summary :=
  { Instrument := i
    Net_Quantity := roundTo 3 (Net_Quantity ts i)
    Average_Price := Average_Price ts i
    Total_Invested := Total_Invested ts i
    Total_Dividends := Total_Dividends ts i }

/-- The rows of `final_summary` as returned by `process_data` (line 104). -/
def holdingSummary (ts : List Txn) : List Summary :=
  (displayedInstruments ts).map (mkSummary ts)

/-- `process_data` end to end: filter by transaction code, clean the numeric
columns (which can raise), aggregate, and keep the held instruments. -/
def process_data (rows : List Row) : Except Unit (List Summary) :=
  (parseTable rows).map holdingSummary

/-- Line 111: `df["Dividend_Yield"] = df["Total_Dividends"] /
df["Total_Invested"] * 100`, computed on the displayed rows. -/
def Dividend_Yield (s : Summary) : ℚ :=
  s.Total_Dividends / s.Total_Invested * 100

/-- Claim-level guard predicate: every division performed for a displayed
row (`Net_Quantity / Quantity_buy` on line 76, `Adjusted_Cost /
Net_Quantity` on line 81, `Total_Dividends / Total_Invested` on line 111)
has a nonzero denominator. -/
def guardedDivisions (ts : List Txn) : Prop :=
  ∀ i ∈ displayedInstruments ts,
    Quantity_buy ts i ≠ 0 ∧ Net_Quantity ts i ≠ 0 ∧ Total_Invested ts i ≠ 0

/-- A table with a parenthesised (negative) dividend amount. -/
def c1Rows : List Row :=
  [⟨"X", "Buy", "1", "$10.00", "($10.00)"⟩,
   ⟨"X", "CDIV", "", "", "($50.00)"⟩]

/-- `c1Rows` after cleaning: both parenthesised amounts come out positive. -/
def c1Txns : List Txn :=
  [⟨"X", "Buy", some 1, some 10, some 10⟩,
   ⟨"X", "CDIV", none, none, some 50⟩]

/-- A table with one well-formed instrument and one row with `Price="N/A"`
(an NA token: `read_csv` loads it as NaN, so the load does not raise). -/
def c2Rows : List Row :=
  [⟨"MSFT", "Buy", "2", "$10.00", "($20.00)"⟩,
   ⟨"AAPL", "Buy", "1", "N/A", "($10.00)"⟩]

/-- `c2Rows` after cleaning: the AAPL row survives with a NaN price. -/
def c2Txns : List Txn :=
  [⟨"MSFT", "Buy", some 2, some 10, some 20⟩,
   ⟨"AAPL", "Buy", some 1, none, some 10⟩]

/-- The same table without the malformed row. -/
def c2GoodRows : List Row :=
  [⟨"MSFT", "Buy", "2", "$10.00", "($20.00)"⟩]

/-- The same table with a Price that fails to parse without being an NA
token: "abc" reaches `astype(float)`, which raises. -/
def c2BadRows : List Row :=
  [⟨"MSFT", "Buy", "2", "$10.00", "($20.00)"⟩,
   ⟨"AAPL", "Buy", "1", "abc", "($10.00)"⟩]

/-- A buy at price $0.00 plus a dividend: a held instrument with
`Total_Invested = 0` and `Total_Dividends ≠ 0`. -/
def c3Rows : List Row :=
  [⟨"X", "Buy", "1", "$0.00", "$0.00"⟩,
   ⟨"X", "CDIV", "", "", "$5.00"⟩]

/-- `c3Rows` after cleaning. -/
def c3Txns : List Txn :=
  [⟨"X", "Buy", some 1, some 0, some 0⟩,
   ⟨"X", "CDIV", none, none, some 5⟩]

/-- The spec's worked example: Buy 10 @ $100 then Sell 4. -/
def c4Rows : List Row :=
  [⟨"STK", "Buy", "10", "$100.00", "($1,000.00)"⟩,
   ⟨"STK", "Sell", "4", "$110.00", "$440.00"⟩]

/-- `c4Rows` after cleaning. -/
def c4Txns : List Txn :=
  [⟨"STK", "Buy", some 10, some 100, some 1000⟩,
   ⟨"STK", "Sell", some 4, some 110, some 440⟩]

/-- Two instruments, one with a sell and one without. -/
def c5Rows : List Row :=
  [⟨"A", "Buy", "3", "$10.00", "($30.00)"⟩,
   ⟨"A", "Buy", "2", "$10.00", "($20.00)"⟩,
   ⟨"A", "Sell", "1", "$12.00", "$12.00"⟩,
   ⟨"B", "Buy", "4", "$5.00", "($20.00)"⟩]

/-- `c5Rows` after cleaning. -/
def c5Txns : List Txn :=
  [⟨"A", "Buy", some 3, some 10, some 30⟩,
   ⟨"A", "Buy", some 2, some 10, some 20⟩,
   ⟨"A", "Sell", some 1, some 12, some 12⟩,
   ⟨"B", "Buy", some 4, some 5, some 20⟩]

/-- A dividend-only instrument and a sell-only instrument: no buys at all. -/
def c6Rows : List Row :=
  [⟨"D", "CDIV", "", "", "$50.00"⟩,
   ⟨"S", "Sell", "4", "$10.00", "$40.00"⟩]

/-- `c6Rows` after cleaning. -/
def c6Txns : List Txn :=
  [⟨"D", "CDIV", none, none, some 50⟩,
   ⟨"S", "Sell", some 4, some 10, some 40⟩]

/-- The spec's dividend-yield example: $1000 invested, $20 of dividends. -/
def c7Rows : List Row :=
  [⟨"Y", "Buy", "10", "$100.00", "($1,000.00)"⟩,
   ⟨"Y", "CDIV", "", "", "$20.00"⟩]

/-- `c7Rows` after cleaning. -/
def c7Txns : List Txn :=
  [⟨"Y", "Buy", some 10, some 100, some 1000⟩,
   ⟨"Y", "CDIV", none, none, some 20⟩]

/-- A dividend amount with sub-cent precision, $1.239. -/
def c7xRows : List Row :=
  [⟨"X", "Buy", "1", "$10.00", "($10.00)"⟩,
   ⟨"X", "CDIV", "", "", "$1.239"⟩]

/-- `c7xRows` after cleaning. -/
def c7xTxns : List Txn :=
  [⟨"X", "Buy", some 1, some 10, some 10⟩,
   ⟨"X", "CDIV", none, none, some (1239/1000)⟩]

/-- Two buys of one instrument and no sells. -/
def c8Rows : List Row :=
  [⟨"Z", "Buy", "2", "$10.00", "($20.00)"⟩,
   ⟨"Z", "Buy", "3", "$20.00", "($60.00)"⟩]

/-- `c8Rows` after cleaning. -/
def c8Txns : List Txn :=
  [⟨"Z", "Buy", some 2, some 10, some 20⟩,
   ⟨"Z", "Buy", some 3, some 20, some 60⟩]

/-- Modelled from the spec: the Return Estimator is described in the spec
(§4.2, CashFlow in §3) but its code is not under `src/`.  A cash flow is a
signed amount dated by its day offset from the reference epoch. -/
structure CashFlow where
  amount : ℚ
  days : ℕ
deriving Repr, DecidableEq

/-- Modelled from the spec: `NPV(r) = Σ cash_flow_i / (1+r)^(days_i/365)`.
The day-count fraction `days_i / 365` is embedded as the natural number of
whole 365-day periods; for the claim's flows (0 and 365 days) this agrees
with the spec's real-valued exponent. -/
def npv (r : ℚ) (flows : List CashFlow) : ℚ :=
  (flows.map (fun f => f.amount / (1 + r) ^ (f.days / 365))).sum

/-- Modelled from the spec: the derivative of `npv` in `r` (for the
Newton-style root-finder the spec prescribes), term-wise
`-n · cf / (1+r)^(n+1)` for a flow discounted by `(1+r)^n`. -/
def npvDeriv (r : ℚ) (flows : List CashFlow) : ℚ :=
  (flows.map (fun f => -((f.days / 365 : ℕ) : ℚ) * f.amount / (1 + r) ^ (f.days / 365 + 1))).sum

/-- Modelled from the spec: one Newton step `r - NPV(r) / NPV'(r)`. -/
def newtonStep (flows : List CashFlow) (r : ℚ) : ℚ :=
  r - npv r flows / npvDeriv r flows

/-- Modelled from the spec: `n` Newton steps from the starting guess. -/
def newtonIterate (flows : List CashFlow) : ℕ → ℚ → ℚ
  | 0, r => r
  | n + 1, r => newtonIterate flows n (newtonStep flows r)

/-- The claim's cash-flow sequence: an outflow of $1000 at the epoch and a
mark-to-market inflow of $1100 dated 365 days later. -/
def c10Flows : List CashFlow := [⟨-1000, 0⟩, ⟨1100, 365⟩]

theorem sumO_nonneg (l : List (Option ℚ)) (h : ∀ o ∈ l, ∀ q : ℚ, o = some q → 0 ≤ q) :
    0 ≤ sumO l := by
  apply List.sum_nonneg
  intro x hx
  rcases List.mem_filterMap.mp hx with ⟨o, ho, hoq⟩
  exact h o ho x hoq

theorem mem_insertSorted (s x : String) (l : List String) :
    x ∈ insertSorted s l ↔ x = s ∨ x ∈ l := by
  induction l with
  | nil => simp [insertSorted]
  | cons t ts ih =>
    simp only [insertSorted]
    split
    · simp [or_comm, or_left_comm]
    · simp [ih, or_comm, or_left_comm]

theorem mem_sortStrings (x : String) (l : List String) :
    x ∈ sortStrings l ↔ x ∈ l := by
  induction l with
  | nil => simp [sortStrings]
  | cons t ts ih =>
    show x ∈ insertSorted t (sortStrings ts) ↔ _
    rw [mem_insertSorted, ih]
    simp

theorem mem_dedupKeys (x : String) (l : List String) :
    x ∈ dedupKeys l ↔ x ∈ l := by
  induction l with
  | nil => simp [dedupKeys]
  | cons t ts ih =>
    simp only [dedupKeys]
    split
    · rename_i h
      have ht : t ∈ dedupKeys ts := by
        rcases List.contains_iff_exists_mem_beq.mp h with ⟨y, hy, hbeq⟩
        rwa [show t = y from beq_iff_eq.mp hbeq]
      constructor
      · intro hx
        exact List.mem_cons_of_mem t (ih.mp hx)
      · intro hx
        rcases List.mem_cons.mp hx with hx | hx
        · rw [hx]; exact ht
        · exact ih.mpr hx
    · rw [List.mem_cons, List.mem_cons, ih]

theorem mem_buyInstruments (ts : List Txn) (i : String) :
    i ∈ buyInstruments ts ↔ ∃ t ∈ ts, t.transCode = "Buy" ∧ t.instrument = i := by
  rw [buyInstruments, mem_sortStrings, mem_dedupKeys]
  simp only [List.mem_map, List.mem_filter, beq_iff_eq]
  constructor
  · rintro ⟨t, ⟨ht, hc⟩, hi⟩
    exact ⟨t, ht, hc, hi⟩
  · rintro ⟨t, ht, hc, hi⟩
    exact ⟨t, ⟨ht, hc⟩, hi⟩

theorem mem_displayedInstruments (ts : List Txn) (i : String) :
    i ∈ displayedInstruments ts ↔ i ∈ buyInstruments ts ∧ 0 < Net_Quantity ts i := by
  rw [displayedInstruments, List.mem_filter]
  simp

theorem mem_holdingSummary (ts : List Txn) (i : String) :
    (∃ s ∈ holdingSummary ts, s.Instrument = i) ↔ i ∈ displayedInstruments ts := by
  rw [holdingSummary]
  constructor
  · rintro ⟨s, hs, hi⟩
    rcases List.mem_map.mp hs with ⟨j, hj, hji⟩
    rw [← hji] at hi
    rw [show j = i from hi] at hj
    exact hj
  · intro hi
    exact ⟨mkSummary ts i, List.mem_map_of_mem (mkSummary ts) hi, rfl⟩

theorem holdingSummary_fields (ts : List Txn) (s : Summary) (hs : s ∈ holdingSummary ts) :
    s = mkSummary ts s.Instrument := by
  rcases List.mem_map.mp hs with ⟨j, _, hji⟩
  rw [← hji]
  rfl

theorem toRat_whole (n f : ℕ) : Dec.toRat ⟨false, n, 0, f⟩ = n := by
  norm_num [Dec.toRat]

theorem toRat_1239 : Dec.toRat ⟨false, 1, 239, 3⟩ = 1239 / 1000 := by
  norm_num [Dec.toRat]

theorem mkSummary_eval (ts : List Txn) (i : String) (qb tc qs ds : ℚ)
    (hqb : Quantity_buy ts i = qb) (htc : Total_Cost ts i = tc)
    (hqs : Quantity_sell ts i = qs) (hds : dividendSum ts i = ds) :
    mkSummary ts i =
      ⟨i, roundTo 3 (qb - qs), roundTo 2 (tc * ((qb - qs) / qb) / (qb - qs)),
        roundTo 2 (tc * ((qb - qs) / qb)), roundTo 2 ds⟩ := by
  simp only [mkSummary, Average_Price, Total_Invested, Total_Dividends, Adjusted_Cost,
    Net_Quantity, hqb, htc, hqs, hds]

theorem c1_parse : parseTable c1Rows = .ok c1Txns := by
  have h : parseTable c1Rows = .ok
    [⟨"X", "Buy", some (Dec.toRat ⟨false, 1, 0, 0⟩), some (Dec.toRat ⟨false, 10, 0, 2⟩),
      some (Dec.toRat ⟨false, 10, 0, 2⟩)⟩,
     ⟨"X", "CDIV", none, none, some (Dec.toRat ⟨false, 50, 0, 2⟩)⟩] := rfl
  rw [h]
  norm_num [toRat_whole, c1Txns]

theorem c1_qb : Quantity_buy c1Txns "X" = 1 := by
  norm_num [Quantity_buy, show buyRows c1Txns "X" = [⟨"X", "Buy", some 1, some 10, some 10⟩]
    from rfl, sumO, List.filterMap_cons, id]

theorem c1_tc : Total_Cost c1Txns "X" = 10 := by
  norm_num [Total_Cost, show buyRows c1Txns "X" = [⟨"X", "Buy", some 1, some 10, some 10⟩]
    from rfl, sumO, omul, List.filterMap_cons, id]

theorem c1_qs : Quantity_sell c1Txns "X" = 0 := by
  norm_num [Quantity_sell, show sellRows c1Txns "X" = [] from rfl, sumO]

theorem c1_ds : dividendSum c1Txns "X" = 50 := by
  norm_num [dividendSum, show divRows c1Txns "X" = [⟨"X", "CDIV", none, none, some 50⟩]
    from rfl, sumO, List.filterMap_cons, id]

theorem c1_displayed : displayedInstruments c1Txns = ["X"] := by
  have h : decide (0 < Net_Quantity c1Txns "X") = true :=
    decide_eq_true (by rw [Net_Quantity, c1_qb, c1_qs]; norm_num)
  simp [displayedInstruments, show buyInstruments c1Txns = ["X"] from rfl, List.filter, h]

theorem c1_summary : holdingSummary c1Txns = [⟨"X", 1, 10, 10, 50⟩] := by
  rw [holdingSummary, c1_displayed, List.map_cons, List.map_nil,
    mkSummary_eval c1Txns "X" 1 10 0 50 c1_qb c1_tc c1_qs c1_ds]
  norm_num [roundTo, roundHalfEven, Int.floor_eq_iff]

theorem c2full_parse : parseTable c2Rows = .ok c2Txns := by
  have h : parseTable c2Rows = .ok
    [⟨"MSFT", "Buy", some (Dec.toRat ⟨false, 2, 0, 0⟩), some (Dec.toRat ⟨false, 10, 0, 2⟩),
      some (Dec.toRat ⟨false, 20, 0, 2⟩)⟩,
     ⟨"AAPL", "Buy", some (Dec.toRat ⟨false, 1, 0, 0⟩), none,
      some (Dec.toRat ⟨false, 10, 0, 2⟩)⟩] := rfl
  rw [h]
  norm_num [toRat_whole, c2Txns]

theorem c2bad_error : parseTable c2BadRows = .error () := rfl

theorem c2_qbA : Quantity_buy c2Txns "AAPL" = 1 := by
  norm_num [Quantity_buy, show buyRows c2Txns "AAPL" =
    [⟨"AAPL", "Buy", some 1, none, some 10⟩] from rfl, sumO, List.filterMap_cons, id]

theorem c2_tcA : Total_Cost c2Txns "AAPL" = 0 := by
  norm_num [Total_Cost, show buyRows c2Txns "AAPL" =
    [⟨"AAPL", "Buy", some 1, none, some 10⟩] from rfl, sumO, omul, List.filterMap_cons, id]

theorem c2_qsA : Quantity_sell c2Txns "AAPL" = 0 := by
  norm_num [Quantity_sell, show sellRows c2Txns "AAPL" = [] from rfl, sumO]

theorem c2_dsA : dividendSum c2Txns "AAPL" = 0 := by
  norm_num [dividendSum, show divRows c2Txns "AAPL" = [] from rfl, sumO]

theorem c2_qbM : Quantity_buy c2Txns "MSFT" = 2 := by
  norm_num [Quantity_buy, show buyRows c2Txns "MSFT" =
    [⟨"MSFT", "Buy", some 2, some 10, some 20⟩] from rfl, sumO, List.filterMap_cons, id]

theorem c2_tcM : Total_Cost c2Txns "MSFT" = 20 := by
  norm_num [Total_Cost, show buyRows c2Txns "MSFT" =
    [⟨"MSFT", "Buy", some 2, some 10, some 20⟩] from rfl, sumO, omul, List.filterMap_cons, id]

theorem c2_qsM : Quantity_sell c2Txns "MSFT" = 0 := by
  norm_num [Quantity_sell, show sellRows c2Txns "MSFT" = [] from rfl, sumO]

theorem c2_dsM : dividendSum c2Txns "MSFT" = 0 := by
  norm_num [dividendSum, show divRows c2Txns "MSFT" = [] from rfl, sumO]

theorem c2full_displayed : displayedInstruments c2Txns = ["AAPL", "MSFT"] := by
  have hA : decide (0 < Net_Quantity c2Txns "AAPL") = true :=
    decide_eq_true (by rw [Net_Quantity, c2_qbA, c2_qsA]; norm_num)
  have hM : decide (0 < Net_Quantity c2Txns "MSFT") = true :=
    decide_eq_true (by rw [Net_Quantity, c2_qbM, c2_qsM]; norm_num)
  simp [displayedInstruments, show buyInstruments c2Txns = ["AAPL", "MSFT"] from rfl,
    List.filter, hA, hM]

theorem c2full_summary : holdingSummary c2Txns =
    [⟨"AAPL", 1, 0, 0, 0⟩, ⟨"MSFT", 2, 10, 20, 0⟩] := by
  rw [holdingSummary, c2full_displayed, List.map_cons, List.map_cons, List.map_nil,
    mkSummary_eval c2Txns "AAPL" 1 0 0 0 c2_qbA c2_tcA c2_qsA c2_dsA,
    mkSummary_eval c2Txns "MSFT" 2 20 0 0 c2_qbM c2_tcM c2_qsM c2_dsM]
  norm_num [roundTo, roundHalfEven, Int.floor_eq_iff]

theorem c2_parse : parseTable c2GoodRows = .ok
    [⟨"MSFT", "Buy", some 2, some 10, some 20⟩] := by
  have h : parseTable c2GoodRows = .ok
    [⟨"MSFT", "Buy", some (Dec.toRat ⟨false, 2, 0, 0⟩), some (Dec.toRat ⟨false, 10, 0, 2⟩),
      some (Dec.toRat ⟨false, 20, 0, 2⟩)⟩] := rfl
  rw [h]
  norm_num [toRat_whole]

theorem c2_qb : Quantity_buy [⟨"MSFT", "Buy", some 2, some 10, some 20⟩] "MSFT" = 2 := by
  norm_num [Quantity_buy, show buyRows [⟨"MSFT", "Buy", some 2, some 10, some 20⟩] "MSFT" =
    [⟨"MSFT", "Buy", some 2, some 10, some 20⟩] from rfl, sumO, List.filterMap_cons, id]

theorem c2_tc : Total_Cost [⟨"MSFT", "Buy", some 2, some 10, some 20⟩] "MSFT" = 20 := by
  norm_num [Total_Cost, show buyRows [⟨"MSFT", "Buy", some 2, some 10, some 20⟩] "MSFT" =
    [⟨"MSFT", "Buy", some 2, some 10, some 20⟩] from rfl, sumO, omul, List.filterMap_cons, id]

theorem c2_qs : Quantity_sell [⟨"MSFT", "Buy", some 2, some 10, some 20⟩] "MSFT" = 0 := by
  norm_num [Quantity_sell,
    show sellRows [⟨"MSFT", "Buy", some 2, some 10, some 20⟩] "MSFT" = [] from rfl, sumO]

theorem c2_ds : dividendSum [⟨"MSFT", "Buy", some 2, some 10, some 20⟩] "MSFT" = 0 := by
  norm_num [dividendSum,
    show divRows [⟨"MSFT", "Buy", some 2, some 10, some 20⟩] "MSFT" = [] from rfl, sumO]

theorem c2_displayed :
    displayedInstruments [⟨"MSFT", "Buy", some 2, some 10, some 20⟩] = ["MSFT"] := by
  have h : decide (0 < Net_Quantity [⟨"MSFT", "Buy", some 2, some 10, some 20⟩] "MSFT") = true :=
    decide_eq_true (by rw [Net_Quantity, c2_qb, c2_qs]; norm_num)
  simp [displayedInstruments,
    show buyInstruments [⟨"MSFT", "Buy", some 2, some 10, some 20⟩] = ["MSFT"] from rfl,
    List.filter, h]

theorem c2_summary : holdingSummary [⟨"MSFT", "Buy", some 2, some 10, some 20⟩] =
    [⟨"MSFT", 2, 10, 20, 0⟩] := by
  rw [holdingSummary, c2_displayed, List.map_cons, List.map_nil,
    mkSummary_eval _ "MSFT" 2 20 0 0 c2_qb c2_tc c2_qs c2_ds]
  norm_num [roundTo, roundHalfEven, Int.floor_eq_iff]

theorem c3_parse : parseTable c3Rows = .ok c3Txns := by
  have h : parseTable c3Rows = .ok
    [⟨"X", "Buy", some (Dec.toRat ⟨false, 1, 0, 0⟩), some (Dec.toRat ⟨false, 0, 0, 2⟩),
      some (Dec.toRat ⟨false, 0, 0, 2⟩)⟩,
     ⟨"X", "CDIV", none, none, some (Dec.toRat ⟨false, 5, 0, 2⟩)⟩] := rfl
  rw [h]
  norm_num [toRat_whole, c3Txns]

theorem c3_qb : Quantity_buy c3Txns "X" = 1 := by
  norm_num [Quantity_buy, show buyRows c3Txns "X" = [⟨"X", "Buy", some 1, some 0, some 0⟩]
    from rfl, sumO, List.filterMap_cons, id]

theorem c3_tc : Total_Cost c3Txns "X" = 0 := by
  norm_num [Total_Cost, show buyRows c3Txns "X" = [⟨"X", "Buy", some 1, some 0, some 0⟩]
    from rfl, sumO, omul, List.filterMap_cons, id]

theorem c3_qs : Quantity_sell c3Txns "X" = 0 := by
  norm_num [Quantity_sell, show sellRows c3Txns "X" = [] from rfl, sumO]

theorem c3_ds : dividendSum c3Txns "X" = 5 := by
  norm_num [dividendSum, show divRows c3Txns "X" = [⟨"X", "CDIV", none, none, some 5⟩]
    from rfl, sumO, List.filterMap_cons, id]

theorem c3_displayed : displayedInstruments c3Txns = ["X"] := by
  have h : decide (0 < Net_Quantity c3Txns "X") = true :=
    decide_eq_true (by rw [Net_Quantity, c3_qb, c3_qs]; norm_num)
  simp [displayedInstruments, show buyInstruments c3Txns = ["X"] from rfl, List.filter, h]

theorem c3_inv : Total_Invested c3Txns "X" = 0 := by
  rw [Total_Invested, Adjusted_Cost, c3_tc]
  norm_num [roundTo, roundHalfEven, Int.floor_eq_iff]

theorem c3_td : Total_Dividends c3Txns "X" = 5 := by
  rw [Total_Dividends, c3_ds]
  norm_num [roundTo, roundHalfEven, Int.floor_eq_iff]

theorem c4_parse : parseTable c4Rows = .ok c4Txns := by
  have h : parseTable c4Rows = .ok
    [⟨"STK", "Buy", some (Dec.toRat ⟨false, 10, 0, 0⟩), some (Dec.toRat ⟨false, 100, 0, 2⟩),
      some (Dec.toRat ⟨false, 1000, 0, 2⟩)⟩,
     ⟨"STK", "Sell", some (Dec.toRat ⟨false, 4, 0, 0⟩), some (Dec.toRat ⟨false, 110, 0, 2⟩),
      some (Dec.toRat ⟨false, 440, 0, 2⟩)⟩] := rfl
  rw [h]
  norm_num [toRat_whole, c4Txns]

theorem c4_qb : Quantity_buy c4Txns "STK" = 10 := by
  norm_num [Quantity_buy, show buyRows c4Txns "STK" =
    [⟨"STK", "Buy", some 10, some 100, some 1000⟩] from rfl, sumO, List.filterMap_cons, id]

theorem c4_tc : Total_Cost c4Txns "STK" = 1000 := by
  norm_num [Total_Cost, show buyRows c4Txns "STK" =
    [⟨"STK", "Buy", some 10, some 100, some 1000⟩] from rfl, sumO, omul, List.filterMap_cons, id]

theorem c4_qs : Quantity_sell c4Txns "STK" = 4 := by
  norm_num [Quantity_sell, show sellRows c4Txns "STK" =
    [⟨"STK", "Sell", some 4, some 110, some 440⟩] from rfl, sumO, List.filterMap_cons, id]

theorem c4_ds : dividendSum c4Txns "STK" = 0 := by
  norm_num [dividendSum, show divRows c4Txns "STK" = [] from rfl, sumO]

theorem c4_displayed : displayedInstruments c4Txns = ["STK"] := by
  have h : decide (0 < Net_Quantity c4Txns "STK") = true :=
    decide_eq_true (by rw [Net_Quantity, c4_qb, c4_qs]; norm_num)
  simp [displayedInstruments, show buyInstruments c4Txns = ["STK"] from rfl, List.filter, h]

theorem c4_summary : holdingSummary c4Txns = [⟨"STK", 6, 100, 600, 0⟩] := by
  rw [holdingSummary, c4_displayed, List.map_cons, List.map_nil,
    mkSummary_eval c4Txns "STK" 10 1000 4 0 c4_qb c4_tc c4_qs c4_ds]
  norm_num [roundTo, roundHalfEven, Int.floor_eq_iff]

theorem c5_parse : parseTable c5Rows = .ok c5Txns := by
  have h : parseTable c5Rows = .ok
    [⟨"A", "Buy", some (Dec.toRat ⟨false, 3, 0, 0⟩), some (Dec.toRat ⟨false, 10, 0, 2⟩),
      some (Dec.toRat ⟨false, 30, 0, 2⟩)⟩,
     ⟨"A", "Buy", some (Dec.toRat ⟨false, 2, 0, 0⟩), some (Dec.toRat ⟨false, 10, 0, 2⟩),
      some (Dec.toRat ⟨false, 20, 0, 2⟩)⟩,
     ⟨"A", "Sell", some (Dec.toRat ⟨false, 1, 0, 0⟩), some (Dec.toRat ⟨false, 12, 0, 2⟩),
      some (Dec.toRat ⟨false, 12, 0, 2⟩)⟩,
     ⟨"B", "Buy", some (Dec.toRat ⟨false, 4, 0, 0⟩), some (Dec.toRat ⟨false, 5, 0, 2⟩),
      some (Dec.toRat ⟨false, 20, 0, 2⟩)⟩] := rfl
  rw [h]
  norm_num [toRat_whole, c5Txns]

theorem c5_qbA : Quantity_buy c5Txns "A" = 5 := by
  norm_num [Quantity_buy, show buyRows c5Txns "A" =
    [⟨"A", "Buy", some 3, some 10, some 30⟩, ⟨"A", "Buy", some 2, some 10, some 20⟩] from rfl,
    sumO, List.filterMap_cons, id]

theorem c5_tcA : Total_Cost c5Txns "A" = 50 := by
  norm_num [Total_Cost, show buyRows c5Txns "A" =
    [⟨"A", "Buy", some 3, some 10, some 30⟩, ⟨"A", "Buy", some 2, some 10, some 20⟩] from rfl,
    sumO, omul, List.filterMap_cons, id]

theorem c5_qsA : Quantity_sell c5Txns "A" = 1 := by
  norm_num [Quantity_sell, show sellRows c5Txns "A" =
    [⟨"A", "Sell", some 1, some 12, some 12⟩] from rfl, sumO, List.filterMap_cons, id]

theorem c5_dsA : dividendSum c5Txns "A" = 0 := by
  norm_num [dividendSum, show divRows c5Txns "A" = [] from rfl, sumO]

theorem c5_qbB : Quantity_buy c5Txns "B" = 4 := by
  norm_num [Quantity_buy, show buyRows c5Txns "B" =
    [⟨"B", "Buy", some 4, some 5, some 20⟩] from rfl, sumO, List.filterMap_cons, id]

theorem c5_tcB : Total_Cost c5Txns "B" = 20 := by
  norm_num [Total_Cost, show buyRows c5Txns "B" =
    [⟨"B", "Buy", some 4, some 5, some 20⟩] from rfl, sumO, omul, List.filterMap_cons, id]

theorem c5_qsB : Quantity_sell c5Txns "B" = 0 := by
  norm_num [Quantity_sell, show sellRows c5Txns "B" = [] from rfl, sumO]

theorem c5_dsB : dividendSum c5Txns "B" = 0 := by
  norm_num [dividendSum, show divRows c5Txns "B" = [] from rfl, sumO]

theorem c5_displayed : displayedInstruments c5Txns = ["A", "B"] := by
  have hA : decide (0 < Net_Quantity c5Txns "A") = true :=
    decide_eq_true (by rw [Net_Quantity, c5_qbA, c5_qsA]; norm_num)
  have hB : decide (0 < Net_Quantity c5Txns "B") = true :=
    decide_eq_true (by rw [Net_Quantity, c5_qbB, c5_qsB]; norm_num)
  simp [displayedInstruments, show buyInstruments c5Txns = ["A", "B"] from rfl,
    List.filter, hA, hB]

theorem c5_summary : holdingSummary c5Txns = [⟨"A", 4, 10, 40, 0⟩, ⟨"B", 4, 5, 20, 0⟩] := by
  rw [holdingSummary, c5_displayed, List.map_cons, List.map_cons, List.map_nil,
    mkSummary_eval c5Txns "A" 5 50 1 0 c5_qbA c5_tcA c5_qsA c5_dsA,
    mkSummary_eval c5Txns "B" 4 20 0 0 c5_qbB c5_tcB c5_qsB c5_dsB]
  norm_num [roundTo, roundHalfEven, Int.floor_eq_iff]

theorem c6_parse : parseTable c6Rows = .ok c6Txns := by
  have h : parseTable c6Rows = .ok
    [⟨"D", "CDIV", none, none, some (Dec.toRat ⟨false, 50, 0, 2⟩)⟩,
     ⟨"S", "Sell", some (Dec.toRat ⟨false, 4, 0, 0⟩), some (Dec.toRat ⟨false, 10, 0, 2⟩),
      some (Dec.toRat ⟨false, 40, 0, 2⟩)⟩] := rfl
  rw [h]
  norm_num [toRat_whole, c6Txns]

theorem c6_summary : holdingSummary c6Txns = [] := rfl

theorem c7_parse : parseTable c7Rows = .ok c7Txns := by
  have h : parseTable c7Rows = .ok
    [⟨"Y", "Buy", some (Dec.toRat ⟨false, 10, 0, 0⟩), some (Dec.toRat ⟨false, 100, 0, 2⟩),
      some (Dec.toRat ⟨false, 1000, 0, 2⟩)⟩,
     ⟨"Y", "CDIV", none, none, some (Dec.toRat ⟨false, 20, 0, 2⟩)⟩] := rfl
  rw [h]
  norm_num [toRat_whole, c7Txns]

theorem c7_qb : Quantity_buy c7Txns "Y" = 10 := by
  norm_num [Quantity_buy, show buyRows c7Txns "Y" =
    [⟨"Y", "Buy", some 10, some 100, some 1000⟩] from rfl, sumO, List.filterMap_cons, id]

theorem c7_tc : Total_Cost c7Txns "Y" = 1000 := by
  norm_num [Total_Cost, show buyRows c7Txns "Y" =
    [⟨"Y", "Buy", some 10, some 100, some 1000⟩] from rfl, sumO, omul, List.filterMap_cons, id]

theorem c7_qs : Quantity_sell c7Txns "Y" = 0 := by
  norm_num [Quantity_sell, show sellRows c7Txns "Y" = [] from rfl, sumO]

theorem c7_ds : dividendSum c7Txns "Y" = 20 := by
  norm_num [dividendSum, show divRows c7Txns "Y" = [⟨"Y", "CDIV", none, none, some 20⟩]
    from rfl, sumO, List.filterMap_cons, id]

theorem c7_displayed : displayedInstruments c7Txns = ["Y"] := by
  have h : decide (0 < Net_Quantity c7Txns "Y") = true :=
    decide_eq_true (by rw [Net_Quantity, c7_qb, c7_qs]; norm_num)
  simp [displayedInstruments, show buyInstruments c7Txns = ["Y"] from rfl, List.filter, h]

theorem c7_summary : holdingSummary c7Txns = [⟨"Y", 10, 100, 1000, 20⟩] := by
  rw [holdingSummary, c7_displayed, List.map_cons, List.map_nil,
    mkSummary_eval c7Txns "Y" 10 1000 0 20 c7_qb c7_tc c7_qs c7_ds]
  norm_num [roundTo, roundHalfEven, Int.floor_eq_iff]

theorem c7x_parse : parseTable c7xRows = .ok c7xTxns := by
  have h : parseTable c7xRows = .ok
    [⟨"X", "Buy", some (Dec.toRat ⟨false, 1, 0, 0⟩), some (Dec.toRat ⟨false, 10, 0, 2⟩),
      some (Dec.toRat ⟨false, 10, 0, 2⟩)⟩,
     ⟨"X", "CDIV", none, none, some (Dec.toRat ⟨false, 1, 239, 3⟩)⟩] := rfl
  rw [h]
  norm_num [toRat_whole, toRat_1239, c7xTxns]

theorem c7x_qb : Quantity_buy c7xTxns "X" = 1 := by
  norm_num [Quantity_buy, show buyRows c7xTxns "X" =
    [⟨"X", "Buy", some 1, some 10, some 10⟩] from rfl, sumO, List.filterMap_cons, id]

theorem c7x_tc : Total_Cost c7xTxns "X" = 10 := by
  norm_num [Total_Cost, show buyRows c7xTxns "X" =
    [⟨"X", "Buy", some 1, some 10, some 10⟩] from rfl, sumO, omul, List.filterMap_cons, id]

theorem c7x_qs : Quantity_sell c7xTxns "X" = 0 := by
  norm_num [Quantity_sell, show sellRows c7xTxns "X" = [] from rfl, sumO]

theorem c7x_ds : dividendSum c7xTxns "X" = 1239 / 1000 := by
  norm_num [dividendSum, show divRows c7xTxns "X" =
    [⟨"X", "CDIV", none, none, some (1239 / 1000)⟩] from rfl, sumO, List.filterMap_cons, id]

theorem c7x_displayed : displayedInstruments c7xTxns = ["X"] := by
  have h : decide (0 < Net_Quantity c7xTxns "X") = true :=
    decide_eq_true (by rw [Net_Quantity, c7x_qb, c7x_qs]; norm_num)
  simp [displayedInstruments, show buyInstruments c7xTxns = ["X"] from rfl, List.filter, h]

theorem c7x_td : Total_Dividends c7xTxns "X" = 31 / 25 := by
  rw [Total_Dividends, c7x_ds]
  norm_num [roundTo, roundHalfEven, Int.floor_eq_iff]

theorem c7x_summary : holdingSummary c7xTxns = [⟨"X", 1, 10, 10, 31 / 25⟩] := by
  rw [holdingSummary, c7x_displayed, List.map_cons, List.map_nil,
    mkSummary_eval c7xTxns "X" 1 10 0 (1239 / 1000) c7x_qb c7x_tc c7x_qs c7x_ds]
  norm_num [roundTo, roundHalfEven, Int.floor_eq_iff]

theorem c8_parse : parseTable c8Rows = .ok c8Txns := by
  have h : parseTable c8Rows = .ok
    [⟨"Z", "Buy", some (Dec.toRat ⟨false, 2, 0, 0⟩), some (Dec.toRat ⟨false, 10, 0, 2⟩),
      some (Dec.toRat ⟨false, 20, 0, 2⟩)⟩,
     ⟨"Z", "Buy", some (Dec.toRat ⟨false, 3, 0, 0⟩), some (Dec.toRat ⟨false, 20, 0, 2⟩),
      some (Dec.toRat ⟨false, 60, 0, 2⟩)⟩] := rfl
  rw [h]
  norm_num [toRat_whole, c8Txns]

theorem c8_qb : Quantity_buy c8Txns "Z" = 5 := by
  norm_num [Quantity_buy, show buyRows c8Txns "Z" =
    [⟨"Z", "Buy", some 2, some 10, some 20⟩, ⟨"Z", "Buy", some 3, some 20, some 60⟩] from rfl,
    sumO, List.filterMap_cons, id]

theorem c8_tc : Total_Cost c8Txns "Z" = 80 := by
  norm_num [Total_Cost, show buyRows c8Txns "Z" =
    [⟨"Z", "Buy", some 2, some 10, some 20⟩, ⟨"Z", "Buy", some 3, some 20, some 60⟩] from rfl,
    sumO, omul, List.filterMap_cons, id]

theorem c8_sell : sellRows c8Txns "Z" = [] := rfl

theorem c8_avg : Average_Price c8Txns "Z" = 16 := by
  have hqs : Quantity_sell c8Txns "Z" = 0 := by
    norm_num [Quantity_sell, c8_sell, sumO]
  rw [Average_Price, Adjusted_Cost, Net_Quantity, c8_qb, c8_tc, hqs]
  norm_num [roundTo, roundHalfEven, Int.floor_eq_iff]

/-- C1: the claim says a currency Amount written with parentheses, such as
"($50.00)", denotes a negative number and is normalized to -50.00 before any
summation.  The code only strips the characters `$,()`: the cell parses to
+50.00, and a parenthesised $50 dividend enters the output as +50 — the sign
is lost. -/
theorem C1_paren_amount_sign_lost :
    parseCurrency stripAmount "($50.00)" = .ok (some 50) ∧
    process_data c1Rows = .ok [⟨"X", 1, 10, 10, 50⟩] := by
  constructor
  · have h : parseCurrency stripAmount "($50.00)" =
        .ok (some (Dec.toRat ⟨false, 50, 0, 2⟩)) := rfl
    rw [h, toRat_whole]
    norm_num
  · rw [process_data, c1_parse, Except.map, c1_summary]

/-- C2: the claim says a row whose Price fails to parse (e.g. Price="N/A")
is excluded from all sums without raising, leaving every other instrument's
totals as computed from the dataset without that row.  In the code, "N/A"
is one of `read_csv`'s default NA tokens and loads as NaN, so nothing
raises — but the row is only partially excluded: its Quantity still enters
the bought-quantity sum (second conjunct), so AAPL is even displayed as a
held position of 1 share with zero cost, an output row the cleaned dataset
does not have (compare the first and third conjuncts).  A Price that fails
to parse without being an NA token, such as "abc", reaches `astype(float)`
and aborts the whole load (fourth conjunct). -/
theorem C2_malformed_price_partial_inclusion :
    process_data c2Rows = .ok [⟨"AAPL", 1, 0, 0, 0⟩, ⟨"MSFT", 2, 10, 20, 0⟩] ∧
    Quantity_buy c2Txns "AAPL" = 1 ∧
    process_data c2GoodRows = .ok [⟨"MSFT", 2, 10, 20, 0⟩] ∧
    process_data c2BadRows = .error () := by
  refine ⟨?_, c2_qbA, ?_, ?_⟩
  · rw [process_data, c2full_parse, Except.map, c2full_summary]
  · rw [process_data, c2_parse, Except.map, c2_summary]
  · rw [process_data, c2bad_error]
    rfl

/-- C3 counterexample: on `c3Rows` (a buy of 1 share at $0.00 plus a $5.00
dividend) instrument X is displayed with `Total_Invested = 0` and
`Total_Dividends = 5`: the `Dividend_Yield` division of line 111 is reached
with a zero denominator, so the claimed guard does not exist and the float
result (Inf) flows into the displayed output. -/
theorem C3_counterexample :
    parseTable c3Rows = .ok c3Txns ∧
    "X" ∈ displayedInstruments c3Txns ∧
    Total_Invested c3Txns "X" = 0 ∧
    Total_Dividends c3Txns "X" = 5 ∧
    ¬ guardedDivisions c3Txns := by
  have hx : "X" ∈ displayedInstruments c3Txns := by
    rw [c3_displayed]
    exact List.mem_singleton.mpr rfl
  refine ⟨c3_parse, hx, c3_inv, c3_td, fun h => ?_⟩
  exact (h "X" hx).2.2 c3_inv

/-- C3 (amended): for displayed instruments the two divisions feeding
`Average_Price` (by `Quantity_buy` on line 76 and by `Net_Quantity` on line
81) do have nonzero denominators whenever every parsed quantity is
nonnegative, but the `Dividend_Yield` division by `Total_Invested` (line
111) is unguarded and its denominator can be zero on a displayed row. -/
theorem C3_average_price_divisions_guarded (ts : List Txn)
    (hq : ∀ t ∈ ts, ∀ q : ℚ, t.quantity = some q → 0 ≤ q) :
    ∀ i ∈ displayedInstruments ts, Net_Quantity ts i ≠ 0 ∧ Quantity_buy ts i ≠ 0 := by
  intro i hi
  have hnet : 0 < Net_Quantity ts i := ((mem_displayedInstruments ts i).mp hi).2
  have hqs : 0 ≤ Quantity_sell ts i := by
    apply sumO_nonneg
    intro o ho q hoq
    rcases List.mem_map.mp ho with ⟨t, ht, hto⟩
    exact hq t (List.mem_of_mem_filter ht) q (by rw [hto]; exact hoq)
  refine ⟨ne_of_gt hnet, ne_of_gt ?_⟩
  have h := hnet
  rw [Net_Quantity] at h
  linarith

/-- C3 amended claim at the concrete table `c3Txns`. -/
theorem C3_amended_witness :
    (∀ t ∈ c3Txns, ∀ q : ℚ, t.quantity = some q → 0 ≤ q) ∧
    (Net_Quantity c3Txns "X" ≠ 0 ∧ Quantity_buy c3Txns "X" ≠ 0) := by
  have hq : ∀ t ∈ c3Txns, ∀ q : ℚ, t.quantity = some q → 0 ≤ q := by
    intro t ht q hqq
    rcases List.mem_cons.mp ht with h1 | h2
    · rw [h1] at hqq
      simp only [Option.some.injEq] at hqq
      rw [← hqq]
      norm_num
    · rcases List.mem_cons.mp h2 with h3 | h4
      · rw [h3] at hqq
        exact absurd hqq (by simp)
      · exact absurd h4 (List.not_mem_nil t)
  refine ⟨hq, C3_average_price_divisions_guarded c3Txns hq "X" ?_⟩
  rw [c3_displayed]
  exact List.mem_singleton.mpr rfl

/-- C4: whenever the gross bought quantity is positive, `Adjusted_Cost`
equals `Total_Cost × (Net_Quantity / Quantity_buy)` and `Average_Price`
equals `Adjusted_Cost / Net_Quantity` rounded to 2 decimals; on the spec's
example (Buy 10 @ $100 then Sell 4) the pipeline outputs net quantity 6,
invested $600 and average price $100. -/
theorem C4_proportional_cost_basis :
    (∀ (ts : List Txn) (i : String), 0 < Quantity_buy ts i →
      Adjusted_Cost ts i = Total_Cost ts i * (Net_Quantity ts i / Quantity_buy ts i) ∧
      Average_Price ts i = roundTo 2 (Adjusted_Cost ts i / Net_Quantity ts i)) ∧
    process_data c4Rows = .ok [⟨"STK", 6, 100, 600, 0⟩] := by
  constructor
  · exact fun ts i _ => ⟨rfl, rfl⟩
  · rw [process_data, c4_parse, Except.map, c4_summary]

/-- C4 instantiated on the spec's example table. -/
theorem C4_witness :
    0 < Quantity_buy c4Txns "STK" ∧
    (Adjusted_Cost c4Txns "STK" =
      Total_Cost c4Txns "STK" * (Net_Quantity c4Txns "STK" / Quantity_buy c4Txns "STK") ∧
     Average_Price c4Txns "STK" =
      roundTo 2 (Adjusted_Cost c4Txns "STK" / Net_Quantity c4Txns "STK")) := by
  have h : 0 < Quantity_buy c4Txns "STK" := by rw [c4_qb]; norm_num
  exact ⟨h, C4_proportional_cost_basis.1 c4Txns "STK" h⟩

/-- C5: `Net_Quantity` is the buy-quantity sum minus the sell-quantity sum,
and an instrument with no Sell rows has sold quantity 0 (the left join's
missing value is filled with 0, not treated as unknown); on `c5Rows`,
A (with a sell) nets 5 − 1 = 4 and B (no sells) nets 4 − 0 = 4. -/
theorem C5_net_quantity :
    (∀ (ts : List Txn) (i : String),
      Net_Quantity ts i = Quantity_buy ts i - Quantity_sell ts i ∧
      (sellRows ts i = [] → Quantity_sell ts i = 0)) ∧
    process_data c5Rows = .ok [⟨"A", 4, 10, 40, 0⟩, ⟨"B", 4, 5, 20, 0⟩] := by
  constructor
  · intro ts i
    refine ⟨rfl, fun h => ?_⟩
    rw [Quantity_sell, h]
    rfl
  · rw [process_data, c5_parse, Except.map, c5_summary]

/-- C5 at instrument B of `c5Txns`, which has no Sell rows. -/
theorem C5_witness :
    sellRows c5Txns "B" = [] ∧
    Quantity_sell c5Txns "B" = 0 ∧
    Net_Quantity c5Txns "B" = Quantity_buy c5Txns "B" - Quantity_sell c5Txns "B" := by
  refine ⟨rfl, ?_, (C5_net_quantity.1 c5Txns "B").1⟩
  exact (C5_net_quantity.1 c5Txns "B").2 rfl

/-- C6: an instrument appears in the holding summary iff it has at least one
Buy transaction and strictly positive `Net_Quantity`; on `c6Rows` a
dividend-only instrument and a sell-only instrument produce no output row
and no failure. -/
theorem C6_membership :
    (∀ (ts : List Txn) (i : String),
      ((∃ s ∈ holdingSummary ts, s.Instrument = i) ↔
        (∃ t ∈ ts, t.transCode = "Buy" ∧ t.instrument = i) ∧ 0 < Net_Quantity ts i)) ∧
    process_data c6Rows = .ok [] := by
  constructor
  · intro ts i
    rw [mem_holdingSummary, mem_displayedInstruments, mem_buyInstruments]
  · rw [process_data, c6_parse, Except.map, c6_summary]

/-- C7 counterexample: a CDIV amount with sub-cent precision, $1.239, sums
to 1.239 but is rounded by line 101, so the displayed `Total_Dividends` is
1.24 and does not equal the sum of the instrument's dividend amounts. -/
theorem C7_counterexample :
    parseTable c7xRows = .ok c7xTxns ∧
    dividendSum c7xTxns "X" = 1239 / 1000 ∧
    process_data c7xRows = .ok [⟨"X", 1, 10, 10, 31 / 25⟩] ∧
    Total_Dividends c7xTxns "X" ≠ dividendSum c7xTxns "X" := by
  refine ⟨c7x_parse, c7x_ds, ?_, ?_⟩
  · rw [process_data, c7x_parse, Except.map, c7x_summary]
  · rw [c7x_td, c7x_ds]
    norm_num

/-- C7 (amended): the displayed `Total_Dividends` equals the sum of the
instrument's CDIV amounts rounded to 2 decimals, and is 0 when there are no
CDIV rows; `Dividend_Yield` is exactly `Total_Dividends / Total_Invested ×
100`, and the spec's example ($1000 invested, $20 of dividends) yields
exactly 2%. -/
theorem C7_dividends_amended :
    (∀ ts : List Txn, ∀ s ∈ holdingSummary ts,
      s.Total_Dividends = roundTo 2 (dividendSum ts s.Instrument) ∧
      (divRows ts s.Instrument = [] → s.Total_Dividends = 0) ∧
      Dividend_Yield s = s.Total_Dividends / s.Total_Invested * 100) ∧
    process_data c7Rows = .ok [⟨"Y", 10, 100, 1000, 20⟩] ∧
    Dividend_Yield ⟨"Y", 10, 100, 1000, 20⟩ = 2 := by
  refine ⟨?_, ?_, ?_⟩
  · intro ts s hs
    have h := holdingSummary_fields ts s hs
    refine ⟨?_, ?_, rfl⟩
    · conv_lhs => rw [h]
      rfl
    · intro hdiv
      conv_lhs => rw [h]
      show Total_Dividends ts s.Instrument = 0
      rw [Total_Dividends, dividendSum, hdiv]
      norm_num [sumO, roundTo, roundHalfEven, Int.floor_eq_iff]
  · rw [process_data, c7_parse, Except.map, c7_summary]
  · rw [Dividend_Yield]
    norm_num

/-- C7 amended claim at the spec's example row of `c7Txns`. -/
theorem C7_amended_witness :
    (⟨"Y", 10, 100, 1000, 20⟩ : Summary) ∈ holdingSummary c7Txns ∧
    ((20 : ℚ) = roundTo 2 (dividendSum c7Txns "Y") ∧
     (divRows c7Txns "Y" = [] → (20 : ℚ) = 0) ∧
     Dividend_Yield ⟨"Y", 10, 100, 1000, 20⟩ = 20 / 1000 * 100) := by
  have hmem : (⟨"Y", 10, 100, 1000, 20⟩ : Summary) ∈ holdingSummary c7Txns := by
    rw [c7_summary]
    exact List.mem_singleton.mpr rfl
  exact ⟨hmem, C7_dividends_amended.1 c7Txns _ hmem⟩

/-- C8: for an instrument with no Sell rows and positive bought quantity,
`Net_Quantity` equals the gross bought quantity and `Average_Price` is the
simple volume-weighted price `Total_Cost / Quantity_buy` rounded to 2
decimals. -/
theorem C8_all_buy_vwap (ts : List Txn) (i : String)
    (hs : sellRows ts i = []) (hb : 0 < Quantity_buy ts i) :
    Net_Quantity ts i = Quantity_buy ts i ∧
    Average_Price ts i = roundTo 2 (Total_Cost ts i / Quantity_buy ts i) := by
  have hqs : Quantity_sell ts i = 0 := by
    rw [Quantity_sell, hs]
    rfl
  have hnet : Net_Quantity ts i = Quantity_buy ts i := by
    rw [Net_Quantity, hqs, sub_zero]
  refine ⟨hnet, ?_⟩
  rw [Average_Price, Adjusted_Cost, hnet, div_self (ne_of_gt hb), mul_one]

/-- C8 on the all-Buy table `c8Txns`: two buys, 2 @ $10 and 3 @ $20, give
the volume-weighted average price $16. -/
theorem C8_witness :
    sellRows c8Txns "Z" = [] ∧
    0 < Quantity_buy c8Txns "Z" ∧
    (Net_Quantity c8Txns "Z" = Quantity_buy c8Txns "Z" ∧
     Average_Price c8Txns "Z" = roundTo 2 (Total_Cost c8Txns "Z" / Quantity_buy c8Txns "Z")) ∧
    Average_Price c8Txns "Z" = 16 := by
  have hb : 0 < Quantity_buy c8Txns "Z" := by rw [c8_qb]; norm_num
  exact ⟨c8_sell, hb, C8_all_buy_vwap c8Txns "Z" c8_sell hb, c8_avg⟩

/-- C9: rows whose `Trans Code` is not exactly one of Buy, Sell, CDIV have
no effect: the summary computed from the full table equals the one computed
from only the rows with those three codes, because line 24 drops the others
before any numeric conversion or aggregation. -/
theorem C9_other_codes_no_effect (rows : List Row) :
    process_data rows =
      process_data (rows.filter (fun r => transCodes.contains r.transCode)) := by
  simp [process_data, parseTable, List.filter_filter]

theorem npv_nil (r : ℚ) : npv r [] = 0 := rfl

theorem npv_cons (r : ℚ) (f : CashFlow) (fs : List CashFlow) :
    npv r (f :: fs) = f.amount / (1 + r) ^ (f.days / 365) + npv r fs := rfl

/-- C10 (modelled from the spec): for the flow sequence of −$1000 at the
epoch and +$1100 dated 365 days later, r = 0.10 is the unique root of the
NPV above the −100% floor, and the Newton iteration from the spec's starting
guess r₀ = 0.1 is stationary there (NPV(0.1) = 0): the estimator converges
and returns 10%. -/
theorem C10_return_estimator :
    npv (1 / 10) c10Flows = 0 ∧
    (∀ r : ℚ, r ≠ -1 → (npv r c10Flows = 0 ↔ r = 1 / 10)) ∧
    (∀ n : ℕ, newtonIterate c10Flows n (1 / 10) = 1 / 10) := by
  have hnpv : ∀ r : ℚ, npv r c10Flows = -1000 + 1100 / (1 + r) := by
    intro r
    rw [show c10Flows = [⟨-1000, 0⟩, ⟨1100, 365⟩] from rfl, npv_cons, npv_cons, npv_nil]
    norm_num
  have hroot : npv (1 / 10) c10Flows = 0 := by
    rw [hnpv]
    norm_num
  refine ⟨hroot, ?_, ?_⟩
  · intro r hr
    have h1r : (1 : ℚ) + r ≠ 0 := by
      intro h
      exact hr (by linarith)
    rw [hnpv]
    constructor
    · intro h
      have h2 : (1100 : ℚ) = 1000 * (1 + r) := by
        field_simp at h
        linarith
      linarith
    · intro h
      rw [h]
      norm_num
  · have hstep : newtonStep c10Flows (1 / 10) = 1 / 10 := by
      rw [newtonStep, hroot, zero_div, sub_zero]
    intro n
    induction n with
    | zero => rfl
    | succ k ih =>
      show newtonIterate c10Flows k (newtonStep c10Flows (1 / 10)) = 1 / 10
      rw [hstep]
      exact ih

/-- C10 root characterisation applied at the starting guess r = 0.1. -/
theorem C10_witness :
    ((1 : ℚ) / 10 ≠ -1) ∧ (npv (1 / 10) c10Flows = 0 ↔ (1 : ℚ) / 10 = 1 / 10) := by
  have h : (1 : ℚ) / 10 ≠ -1 := by norm_num
  exact ⟨h, C10_return_estimator.2.1 (1 / 10) h⟩
